import Mathlib

/-!
Shallow embedding of the Identity & Credential subsystem of the TecMise
backend (Go): registration and password login (`handler/usuario_handler.go`),
Google federated login and the header-based identity resolver
(`handler/ano_handler.go`, `handler/perfil_handler.go`), the user repository
with schema-capability detection (`model/user_repo.go`), and the user DTOs
(`model/user.go`).  The persistent `usuarios` table is modelled as a list of
rows plus a next-serial counter; SQL queries over it become list operations
that mirror each statement's WHERE clause.
-/

namespace Tecmise

/-- A row of the `usuarios` table (schema.sql plus the optional
`google_sub`, `foto_url`, `tutorial_visto` columns; an absent optional
column is represented by `""` / `false`, matching the `COALESCE(..,'')`
reads in the code). -/
structure Usuario where
  id : Nat
  nome : String
  email : String
  senha_hash : String
  google_sub : String
  foto_url : String
  tutorial_visto : Bool
deriving DecidableEq, Repr

/-- The persistent store: the `usuarios` rows in insertion order and the
next value of the `id` serial. -/
structure DB where
  users : List Usuario
  nextId : Nat
deriving DecidableEq, Repr

/-- ASCII whitespace, the characters `strings.TrimSpace` strips in the
inputs this system sees. -/
def isWS (c : Char) : Bool := c == ' ' || c == '\t' || c == '\n' || c == '\r'

/-- Executable model of Go `strings.TrimSpace` (structural recursion over
the character list so concrete instances evaluate in the kernel). -/
def trimS (s : String) : String :=
  ⟨((s.data.dropWhile isWS).reverse.dropWhile isWS).reverse⟩

/-- Executable model of Go `strings.ToLower` (ASCII). -/
def lowerS (s : String) : String := ⟨s.data.map Char.toLower⟩

/-- Go `strings.Contains(s, string(c))` for a one-character needle. -/
def containsChar (s : String) (c : Char) : Bool := s.data.contains c

/-- Splits a character list at every occurrence of `c` (used by the email
parser model). -/
def splitOnChar (c : Char) : List Char → List (List Char)
  | [] => [[]]
  | a :: t =>
    match splitOnChar c t with
    | [] => [[]]
    | h :: r => if a == c then [] :: h :: r else (a :: h) :: r

/-- Model of the external library `bcrypt.GenerateFromPassword`: produces an
opaque, well-formed (non-empty, `$2a$`-prefixed) hash of the password.  The
salt is irrelevant to the verified properties, so the model is
deterministic. -/
def bcryptHash (senha : String) : String := "$2a$10$" ++ senha

/-- Model of the external library `bcrypt.CompareHashAndPassword` (as a
Bool: `true` = match).  Per the bcrypt contract it succeeds exactly when the
stored value is a well-formed hash of the submitted password; an empty (or
otherwise malformed) stored value always fails. -/
def bcryptCheckOk (hash senha : String) : Bool := hash == bcryptHash senha

/-- Model of the external library `net/mail.ParseAddress` (as a Bool:
`true` = parses).  Simplified to the structure the claims rely on: a single
`@` separating a non-empty local part and a non-empty domain, and no
embedded space. -/
def parseAddressOk (s : String) : Bool :=
  !containsChar s ' ' &&
    (match splitOnChar '@' s.data with
     | [lp, dp] => !lp.isEmpty && !dp.isEmpty
     | _ => false)

/-- `strings.TrimSpace` + `strings.ToLower`, the email normalisation done by
`RegisterRequest.Sanitize` and `LoginRequest.Sanitize` (model/user.go). -/
def normEmail (e : String) : String := lowerS (trimS e)

/-- The name check of `RegisterHandler` (usuario_handler.go line 71),
applied to the already-sanitized name:
`strings.TrimSpace(req.Nome) == "" || len(req.Nome) < 2`. -/
def nomeInvalido (s : String) : Bool := trimS s == "" || s.length < 2

/-- The password check shared by `RegisterHandler` (line 80) and
`LoginHandler` (line 167): `len(req.Senha) < 8 || strings.Contains(req.Senha, " ")`. -/
def senhaInvalida (s : String) : Bool := s.length < 8 || containsChar s ' '

/-- `model.RegisterRequest` after JSON decoding. -/
structure RegisterRequest where
  nome : String
  email : String
  senha : String
deriving DecidableEq, Repr

/-- `RegisterRequest.Sanitize` (model/user.go): trims the name and
trims+lowercases the email. -/
def sanitizeRegister (r : RegisterRequest) : RegisterRequest :=
  { r with nome := trimS r.nome, email := normEmail r.email }

/-- Outcome of `RegisterHandler`: `writeJSONError(status, msg)` or the 201
`{"ok": true}` success body. -/
inductive RegResult where
  | err (status : Nat) (msg : String)
  | created
deriving DecidableEq, Repr

/-- The `LOWER(email)=LOWER($1)` row predicate used by the register
uniqueness check, the login lookup, and step 2 of the Google upsert. -/
def emailMatches (q : String) (u : Usuario) : Bool :=
  lowerS u.email == lowerS q

/-- `RegisterHandler` (usuario_handler.go lines 61-123), after JSON
decoding: sanitize, validate name/email/password, case-insensitive
uniqueness check, bcrypt-hash, insert.  Returns the response and the new
store.  (The model store never reports I/O errors, so the 500 branches and
the unique-constraint 409 fallback are unreachable here.) -/
def registerHandler (db : DB) (req0 : RegisterRequest) : RegResult × DB :=
  let req := sanitizeRegister req0
  if nomeInvalido req.nome then
    (.err 400 "Nome muito curto", db)
  else if !parseAddressOk req.email then
    (.err 400 "E-mail inválido", db)
  else if senhaInvalida req.senha then
    (.err 400 "Senha muito curta (mínimo 8 caracteres e sem espaços)", db)
  else if db.users.any (emailMatches req.email) then
    (.err 409 "E-mail já cadastrado", db)
  else
    let novo : Usuario :=
      { id := db.nextId, nome := req.nome, email := req.email,
        senha_hash := bcryptHash req.senha, google_sub := "",
        foto_url := "", tutorial_visto := false }
    (.created, { users := db.users ++ [novo], nextId := db.nextId + 1 })

/-- `model.LoginRequest` after JSON decoding. -/
structure LoginRequest where
  email : String
  senha : String
deriving DecidableEq, Repr

/-- The success body of `LoginHandler` (usuario_handler.go lines 202-212):
`{id, nome, email, fotoUrl}` — the stored password hash is not a field. -/
structure LoginPayload where
  id : Nat
  nome : String
  email : String
  fotoUrl : String
deriving DecidableEq, Repr

/-- Builds the login success payload from the selected row and the
sanitized request email (the code echoes `req.Email`, not the stored
column). -/
def loginPayloadOf (u : Usuario) (reqEmail : String) : LoginPayload :=
  { id := u.id, nome := u.nome, email := reqEmail, fotoUrl := u.foto_url }

/-- Outcome of `LoginHandler`. -/
inductive LoginResult where
  | err (status : Nat) (msg : String)
  | ok (p : LoginPayload)
deriving DecidableEq, Repr

/-- The credential-verification core of `LoginHandler` (usuario_handler.go
lines 175-213): select by `LOWER(email)=LOWER($1)`, answer 401 on no row,
compare with bcrypt, answer the same 401 on mismatch, else 200 with the
payload. -/
def loginVerify (db : DB) (q senha : String) : LoginResult :=
  match db.users.find? (emailMatches q) with
  | none => .err 401 "E-mail ou senha incorretos"
  | some u =>
    if bcryptCheckOk u.senha_hash senha then .ok (loginPayloadOf u q)
    else .err 401 "E-mail ou senha incorretos"

/-- `LoginHandler` (usuario_handler.go lines 154-215), after JSON decoding:
sanitize, validate email and password shape, then verify credentials.  The
store is never modified. -/
def loginHandler (db : DB) (req0 : LoginRequest) : LoginResult :=
  let e := normEmail req0.email
  if !parseAddressOk e then .err 400 "E-mail inválido"
  else if senhaInvalida req0.senha then .err 400 "Senha inválida"
  else loginVerify db e req0.senha

/-- `model.User` (model/user.go): the persisted/returned user entity,
including the `Senha` field that `omitempty` hides when blank. -/
structure MUser where
  ID : Nat
  Nome : String
  Email : String
  Senha : String
  FotoURL : String
  TutorialVisto : Bool
deriving DecidableEq, Repr

/-- `model.UserPublic` (model/user.go): the safe projection without a
password field. -/
structure UserPublic where
  ID : Nat
  Nome : String
  Email : String
  FotoURL : String
  TutorialVisto : Bool
deriving DecidableEq, Repr

/-- `User.Public` (model/user.go lines 166-176): projects a `User` to
`UserPublic`, dropping `Senha`. -/
def MUser.Public (u : MUser) : UserPublic :=
  { ID := u.ID, Nome := u.Nome, Email := u.Email,
    FotoURL := u.FotoURL, TutorialVisto := u.TutorialVisto }

/-- The response of `BuscarUsuarioPorEmailHandler` (perfil_handler.go lines
117-123): `{id, nome, email, fotoUrl, tutorial_visto}` scanned from a
SELECT that does not read `senha_hash`. -/
structure BuscarPayload where
  id : Nat
  nome : String
  email : String
  fotoUrl : String
  tutorial_visto : Bool
deriving DecidableEq, Repr

/-- Builds the lookup response from the selected row (perfil_handler.go
lines 125-133). -/
def buscarPayloadOf (u : Usuario) : BuscarPayload :=
  { id := u.id, nome := u.nome, email := u.email,
    fotoUrl := u.foto_url, tutorial_visto := u.tutorial_visto }

/-- Outcome of `BuscarUsuarioPorEmailHandler`. -/
inductive BuscarResult where
  | err (status : Nat) (msg : String)
  | ok (p : BuscarPayload)
deriving DecidableEq, Repr

/-- `BuscarUsuarioPorEmailHandler` (perfil_handler.go lines 109-148):
exact-match lookup by the `email` query parameter (trimmed, `WHERE
email=$1`). -/
def buscarUsuarioPorEmail (db : DB) (emailRaw : String) : BuscarResult :=
  let email := trimS emailRaw
  if email == "" then .err 400 "E-mail não informado"
  else
    match db.users.find? (fun u => u.email == email) with
    | none => .err 404 "Usuário não encontrado"
    | some u => .ok (buscarPayloadOf u)

/-! ## Google federated login (`model/user_repo.go`, `handler/ano_handler.go`) -/

/-- Outcome of one `information_schema.columns` probe issued by
`ensureSchema`'s `check` closure: a row was found, no row was found
(`sql.ErrNoRows`), or the query itself failed. -/
inductive Probe where
  | found
  | noRows
  | failed (e : String)
deriving DecidableEq, Repr

/-- The `check` closure of `ensureSchema` (user_repo.go lines 79-88):
`err == nil` — i.e. `true` exactly when the probe scanned a row; both
`ErrNoRows` and a failing query yield `false`. -/
def checkCol (oracle : String → Probe) (col : String) : Bool :=
  match oracle (lowerS col) with
  | .found => true
  | _ => false

/-- The schema-discovery cache of `SQLUserRepo` (user_repo.go lines
51-58). -/
structure RepoState where
  schemaChecked : Bool
  hasGoogleSub : Bool
  hasFotoURL : Bool
deriving DecidableEq, Repr

/-- `ensureSchema` (user_repo.go lines 75-92): on the first call probes the
two optional columns and caches the flags; on later calls returns at once.
The second component counts the metadata queries the call issued. -/
def ensureSchema (oracle : String → Probe) (s : RepoState) : RepoState × Nat :=
  if s.schemaChecked then (s, 0)
  else
    ({ schemaChecked := true,
       hasGoogleSub := checkCol oracle "google_sub",
       hasFotoURL := checkCol oracle "foto_url" }, 2)

/-- The user value scanned and returned by `UpsertFromGoogle`
(`id, nome, email, COALESCE(foto_url,'')`). -/
structure RepoUser where
  id : Nat
  nome : String
  email : String
  fotoUrl : String
deriving DecidableEq, Repr

/-- `UpsertFromGoogle` (user_repo.go lines 103-199), with the capability
flags already resolved by `ensureSchema`:
1. if `google_sub` is supported and `sub` non-empty, look up by
   `google_sub = $1` and return on a hit;
2. else look up by `LOWER(email) = LOWER($1)`; on a hit, set
   `google_sub = sub` when supported and `sub` non-empty, set
   `foto_url = picture` when supported and `picture` is a differing
   non-empty value, and return the row;
3. else insert a new row with `senha_hash = ''` and the optional columns
   populated according to the capability flags. -/
def upsertFromGoogle (hg hf : Bool) (db : DB)
    (nome email sub picture : String) : RepoUser × DB :=
  match (if hg && sub != "" then db.users.find? (fun u => u.google_sub == sub)
         else none) with
  | some u => (⟨u.id, u.nome, u.email, u.foto_url⟩, db)
  | none =>
    match db.users.find? (emailMatches email) with
    | some u =>
      let newSub := if hg && sub != "" then sub else u.google_sub
      let newFoto := if hf && picture != "" && picture != u.foto_url then picture
                     else u.foto_url
      let db' : DB :=
        { db with users := db.users.map (fun v =>
            if v.id == u.id then { v with google_sub := newSub, foto_url := newFoto }
            else v) }
      (⟨u.id, u.nome, u.email, newFoto⟩, db')
    | none =>
      let novo : Usuario :=
        { id := db.nextId, nome := nome, email := email, senha_hash := "",
          google_sub := if hg then sub else "",
          foto_url := if hf then picture else "", tutorial_visto := false }
      (⟨novo.id, novo.nome, novo.email, novo.foto_url⟩,
       { users := db.users ++ [novo], nextId := db.nextId + 1 })

/-- `googleLoginRequest` (ano_handler.go lines 452-457): the three accepted
field aliases for the ID token. -/
structure GoogleLoginRequest where
  idToken : String
  idTokenAlt : String
  credential : String
deriving DecidableEq, Repr

/-- `firstNonEmpty` (ano_handler.go lines 562-569): first value whose trim
is non-empty, else `""`. -/
def firstNonEmpty (vals : List String) : String :=
  match vals.find? (fun v => trimS v != "") with
  | some v => v
  | none => ""

/-- The claims extracted from a validated Google ID token (ano_handler.go
lines 529-532); an absent claim reads as `""` via the failed type
assertion. -/
structure GoogleClaims where
  email : String
  name : String
  picture : String
  sub : String
deriving DecidableEq, Repr

/-- The success body of `LoginGoogle` (`loginResponse`, ano_handler.go
lines 462-466): `{id, nome, email}` only. -/
structure GooglePayload where
  id : Nat
  nome : String
  email : String
deriving DecidableEq, Repr

/-- Builds `loginResponse` from the repository's user (ano_handler.go lines
549-553). -/
def googlePayloadOf (u : RepoUser) : GooglePayload :=
  { id := u.id, nome := u.nome, email := u.email }

/-- Outcome of `LoginGoogle`. -/
inductive GLResult where
  | err (status : Nat) (msg : String)
  | ok (p : GooglePayload)
deriving DecidableEq, Repr

/-- `LoginGoogle` (ano_handler.go lines 487-554), after method check and
JSON decoding.  `validated` is the result of the external
`idtoken.Validate(ctx, idToken, clientID)` call: `none` when
signature/audience validation fails, `some claims` otherwise. -/
def loginGoogle (clientID : String) (req : GoogleLoginRequest)
    (validated : Option GoogleClaims) (hg hf : Bool) (db : DB) :
    GLResult × DB :=
  if clientID == "" then
    (.err 500 "Servidor sem GOOGLE_CLIENT_ID configurado", db)
  else
    let idTok := trimS (firstNonEmpty [req.idToken, req.idTokenAlt, req.credential])
    if idTok == "" then (.err 400 "idToken é obrigatório", db)
    else
      match validated with
      | none => (.err 401 "ID Token inválido para este CLIENT_ID", db)
      | some c =>
        if c.email == "" || c.sub == "" then
          (.err 401 "Claims obrigatórias ausentes no token", db)
        else
          let nm := if c.name == "" then c.email else c.name
          let (u, db') := upsertFromGoogle hg hf db nm c.email c.sub c.picture
          (.ok (googlePayloadOf u), db')

/-! ## Profile update and tutorial flag -/

/-- The request body of `AtualizarPerfilHandler` (perfil_handler.go lines
33-38). -/
structure PerfilRequest where
  nome : String
  foto_url : String
  fotoUrl : String
  senha : String
deriving DecidableEq, Repr

/-- Outcome of `AtualizarPerfilHandler`: an error or the 200
`{"ok":true}` body. -/
inductive PerfilResult where
  | err (status : Nat) (msg : String)
  | okTrue
deriving DecidableEq, Repr

/-- `AtualizarPerfilHandler` (perfil_handler.go lines 26-104), after method
check and JSON decoding, given the `X-User-Email` header value: 401 on an
empty (trimmed) header, 400 on a short name, 404 when no row has exactly
that email (`WHERE email=$1`, case-sensitive), then an UPDATE of
nome/foto_url (and senha_hash when a password was supplied). -/
def atualizarPerfil (db : DB) (headerEmail : String) (req : PerfilRequest) :
    PerfilResult × DB :=
  let email := trimS headerEmail
  if email == "" then (.err 401 "Usuário não autenticado", db)
  else
    let nome := trimS req.nome
    if nome.length < 2 then (.err 400 "Nome muito curto", db)
    else
      let fotoFinal :=
        if trimS req.foto_url == "" && req.fotoUrl != "" then trimS req.fotoUrl
        else trimS req.foto_url
      if !db.users.any (fun u => u.email == email) then
        (.err 404 "Usuário não encontrado", db)
      else if trimS req.senha != "" then
        if req.senha.length < 8 || containsChar req.senha ' ' then
          (.err 400 "Senha inválida (mínimo 8 caracteres e sem espaços)", db)
        else
          (.okTrue,
           { db with users := db.users.map (fun u =>
               if u.email == email then
                 { u with nome := nome, foto_url := fotoFinal, senha_hash := bcryptHash req.senha }
               else u) })
      else
        (.okTrue,
         { db with users := db.users.map (fun u =>
             if u.email == email then { u with nome := nome, foto_url := fotoFinal }
             else u) })

/-- Outcome of `MarcarTutorialVistoHandler`. -/
inductive TutResult where
  | err (status : Nat) (msg : String)
  | noContent
deriving DecidableEq, Repr

/-- `MarcarTutorialVistoHandler` (usuario_handler.go lines 244-290), after
path parsing: `id` is the parsed path integer and `body` the decoded
`tutorial_visto` pointer — `none` covers an absent body, a body that fails
to decode (the decode error is ignored) and a body without the field; the
flag then defaults to `true`.  Runs `UPDATE usuarios SET tutorial_visto=$1
WHERE id=$2` and answers 404 when no row was affected. -/
def marcarTutorialVisto (db : DB) (id : Int) (body : Option Bool) :
    TutResult × DB :=
  if id ≤ 0 then (.err 400 "id inválido", db)
  else
    let val := body.getD true
    let db' : DB :=
      { db with users := db.users.map (fun u =>
          if (u.id : Int) == id then { u with tutorial_visto := val } else u) }
    if db.users.any (fun u => (u.id : Int) == id) then (.noContent, db')
    else (.err 404 "Usuário não encontrado", db')

/-- The per-row frame condition for the tutorial update: every field of the
new row equals the old row's, except `tutorial_visto`, which is `val` on
the targeted id and unchanged elsewhere. -/
def tutFrame (id : Int) (val : Bool) (u v : Usuario) : Bool :=
  v.id == u.id && v.nome == u.nome && v.email == u.email &&
  v.senha_hash == u.senha_hash && v.google_sub == u.google_sub &&
  v.foto_url == u.foto_url &&
  v.tutorial_visto == (if (u.id : Int) == id then val else u.tutorial_visto)

/-- Blanks the `senha_hash` column of every stored row; responses that do
not read the credential are invariant under it (used to state that no
success response depends on any stored password hash). -/
def maskHashes (db : DB) : DB :=
  { db with users := db.users.map (fun u => { u with senha_hash := "" }) }

/-! ## Helper lemmas -/

/-- A bcrypt hash produced by the model is never the empty string, so the
empty-credential sentinel can never be a hash of any password. -/
theorem bcryptHash_ne_empty (senha : String) : bcryptHash senha ≠ "" := by
  intro h
  have h2 := congrArg String.length h
  simp [bcryptHash, String.length_append] at h2
  exact absurd h2.1 (by decide)

/-- Verifying any password against the empty stored credential fails. -/
theorem bcryptCheckOk_empty (senha : String) : bcryptCheckOk "" senha = false := by
  simp [bcryptCheckOk]
  exact fun h => bcryptHash_ne_empty senha h.symm

/-- Verifying a password against its own hash succeeds. -/
theorem bcryptCheckOk_hash (senha : String) :
    bcryptCheckOk (bcryptHash senha) senha = true := by
  simp [bcryptCheckOk]

/-- If no element of `l` satisfies `p`, searching `l ++ [x]` finds `x`
exactly when `x` satisfies `p`. -/
theorem find?_append_of_not_any {α : Type} (l : List α) (x : α) (p : α → Bool)
    (h : l.any p = false) :
    (l ++ [x]).find? p = if p x then some x else none := by
  induction l with
  | nil => cases hx : p x <;> simp [List.find?, hx]
  | cons a t ih =>
    simp only [List.any_cons, Bool.or_eq_false_iff] at h
    simp only [List.cons_append, List.find?_cons, h.1, ih h.2]

/-- Folding a pointwise check over a list zipped with its own image under
`f`. -/
theorem zip_map_all {α β : Type} (l : List α) (f : α → β) (g : α → β → Bool) :
    ((l.zip (l.map f)).all fun p => g p.1 p.2) = l.all (fun a => g a (f a)) := by
  induction l with
  | nil => rfl
  | cons a t ih => simp only [List.map_cons, List.zip_cons_cons, List.all_cons, ih]

/-! ## C1 — register then login -/

/-- C1: for every valid registration input — name passing the handler's
name check, email parsing (after sanitisation), password of length at
least 8 without spaces, and no already-registered account under the same
case-insensitive email — `RegisterHandler` answers 201 and a subsequent
`LoginHandler` call with the same raw email and password answers 200 with
the id the registration assigned (`db.nextId`). -/
theorem register_then_login_same_id (db : DB) (nome email senha : String)
    (hnome : nomeInvalido (trimS nome) = false)
    (hemail : parseAddressOk (normEmail email) = true)
    (hsenha : senhaInvalida senha = false)
    (hdup : db.users.any (emailMatches (normEmail email)) = false) :
    (registerHandler db ⟨nome, email, senha⟩).1 = .created ∧
      loginHandler (registerHandler db ⟨nome, email, senha⟩).2 ⟨email, senha⟩ =
        .ok ⟨db.nextId, trimS nome, normEmail email, ""⟩ := by
  have hreg : registerHandler db ⟨nome, email, senha⟩ =
      (.created,
       { users := db.users ++
           [⟨db.nextId, trimS nome, normEmail email, bcryptHash senha, "", "", false⟩],
         nextId := db.nextId + 1 }) := by
    simp [registerHandler, sanitizeRegister, hnome, hemail, hsenha, hdup]
  refine ⟨by rw [hreg], ?_⟩
  rw [hreg]
  have hfind : (db.users ++
      [(⟨db.nextId, trimS nome, normEmail email, bcryptHash senha, "", "", false⟩ : Usuario)]).find?
        (emailMatches (normEmail email)) =
      some ⟨db.nextId, trimS nome, normEmail email, bcryptHash senha, "", "", false⟩ := by
    rw [find?_append_of_not_any _ _ _ hdup]
    simp [emailMatches]
  simp [loginHandler, loginVerify, hemail, hsenha, hfind, bcryptCheckOk_hash,
    loginPayloadOf]

/-- Concrete witness for C1: registering `("Ana", "Ana@Example.com ",
"password1")` into an empty store and logging in with the same email and
password yields the freshly assigned id 1. -/
theorem register_then_login_same_id_witness :
    (registerHandler ⟨[], 1⟩ ⟨"Ana", "Ana@Example.com ", "password1"⟩).1 = .created ∧
      loginHandler (registerHandler ⟨[], 1⟩ ⟨"Ana", "Ana@Example.com ", "password1"⟩).2
          ⟨"Ana@Example.com ", "password1"⟩ =
        .ok ⟨1, "Ana", "ana@example.com", ""⟩ :=
  register_then_login_same_id ⟨[], 1⟩ "Ana" "Ana@Example.com " "password1"
    (by decide) (by decide) (by decide) (by decide)

/-! ## C2 — unknown email and wrong password are indistinguishable -/

/-- C2: a login whose (well-formed) email matches no stored account and a
login whose email matches an account but whose password fails the bcrypt
comparison produce the very same response value — the 401
`"E-mail ou senha incorretos"` error — so the two failures are
observationally identical to the caller. -/
theorem login_failures_indistinguishable (db1 db2 : DB) (r1 r2 : LoginRequest)
    (u : Usuario)
    (h1e : parseAddressOk (normEmail r1.email) = true)
    (h1s : senhaInvalida r1.senha = false)
    (h1 : db1.users.find? (emailMatches (normEmail r1.email)) = none)
    (h2e : parseAddressOk (normEmail r2.email) = true)
    (h2s : senhaInvalida r2.senha = false)
    (h2 : db2.users.find? (emailMatches (normEmail r2.email)) = some u)
    (h2pw : bcryptCheckOk u.senha_hash r2.senha = false) :
    loginHandler db1 r1 = .err 401 "E-mail ou senha incorretos" ∧
      loginHandler db2 r2 = loginHandler db1 r1 := by
  have e1 : loginHandler db1 r1 = .err 401 "E-mail ou senha incorretos" := by
    simp [loginHandler, loginVerify, h1e, h1s, h1]
  have e2 : loginHandler db2 r2 = .err 401 "E-mail ou senha incorretos" := by
    simp [loginHandler, loginVerify, h2e, h2s, h2, h2pw]
  exact ⟨e1, by rw [e1, e2]⟩

/-- Concrete witness for C2: an unregistered email and a wrong password
against a registered account answer the identical 401 response. -/
theorem login_failures_indistinguishable_witness :
    loginHandler ⟨[], 1⟩ ⟨"ghost@example.com", "password1"⟩ =
        .err 401 "E-mail ou senha incorretos" ∧
      loginHandler ⟨[⟨1, "Ana", "ana@example.com", bcryptHash "password1", "", "", false⟩], 2⟩
          ⟨"ana@example.com", "wrongpass"⟩ =
        loginHandler ⟨[], 1⟩ ⟨"ghost@example.com", "password1"⟩ :=
  login_failures_indistinguishable ⟨[], 1⟩
    ⟨[⟨1, "Ana", "ana@example.com", bcryptHash "password1", "", "", false⟩], 2⟩
    ⟨"ghost@example.com", "password1"⟩ ⟨"ana@example.com", "wrongpass"⟩
    ⟨1, "Ana", "ana@example.com", bcryptHash "password1", "", "", false⟩
    (by decide) (by decide) (by decide) (by decide) (by decide) (by decide)
    (by decide)

/-! ## C3 — a federated-only account never passes password login -/

/-- C3: when the account selected by the login lookup stores the empty
credential sentinel (as the Google upsert writes for federated accounts),
the verification core answers the 401 authentication failure for every
submitted password, and the full login handler never answers success for
that email, whatever the submitted password. -/
theorem login_empty_credential_always_fails (db : DB) (emailRaw : String)
    (u : Usuario)
    (hfind : db.users.find? (emailMatches (normEmail emailRaw)) = some u)
    (hempty : u.senha_hash = "") :
    (∀ senha : String,
        loginVerify db (normEmail emailRaw) senha =
          .err 401 "E-mail ou senha incorretos") ∧
      ∀ (senha : String) (p : LoginPayload),
        loginHandler db ⟨emailRaw, senha⟩ ≠ .ok p := by
  have core : ∀ senha : String,
      loginVerify db (normEmail emailRaw) senha =
        .err 401 "E-mail ou senha incorretos" := by
    intro senha
    simp [loginVerify, hfind, hempty, bcryptCheckOk_empty]
  refine ⟨core, ?_⟩
  intro senha p
  unfold loginHandler
  by_cases he : parseAddressOk (normEmail emailRaw) = true
  · by_cases hs : senhaInvalida senha = true
    · simp [he, hs]
    · simp [he, hs, core senha]
  · simp [he]

/-- Concrete witness for C3: a Google-created account (empty
`senha_hash`) rejects an arbitrary password with the 401 failure and the
handler never returns a success payload for it. -/
theorem login_empty_credential_always_fails_witness :
    loginVerify ⟨[⟨1, "Ana", "ana@x.com", "", "sub-1", "", false⟩], 2⟩
        (normEmail "ana@x.com") "password1" =
      .err 401 "E-mail ou senha incorretos" ∧
    loginHandler ⟨[⟨1, "Ana", "ana@x.com", "", "sub-1", "", false⟩], 2⟩
        ⟨"ana@x.com", "password1"⟩ ≠ .ok ⟨1, "Ana", "ana@x.com", ""⟩ := by
  have h := login_empty_credential_always_fails
    ⟨[⟨1, "Ana", "ana@x.com", "", "sub-1", "", false⟩], 2⟩ "ana@x.com"
    ⟨1, "Ana", "ana@x.com", "", "sub-1", "", false⟩ (by decide) rfl
  exact ⟨h.1 "password1", h.2 "password1" ⟨1, "Ana", "ana@x.com", ""⟩⟩

/-! ## C4 — no success response carries the stored credential -/

/-- Searching under a predicate that ignores `senha_hash` commutes with
blanking the column. -/
theorem find?_mask (p : Usuario → Bool)
    (hp : ∀ u, p { u with senha_hash := "" } = p u) (l : List Usuario) :
    (l.map fun u => { u with senha_hash := "" }).find? p =
      (l.find? p).map (fun u => { u with senha_hash := "" }) := by
  induction l with
  | nil => rfl
  | cons a t ih =>
    simp only [List.map_cons, List.find?_cons, hp a]
    cases p a <;> simp [ih]

/-- The user value `UpsertFromGoogle` returns never depends on any stored
password hash. -/
theorem upsert_result_ignores_hashes (hg hf : Bool) (db : DB)
    (nome email sub picture : String) :
    (upsertFromGoogle hg hf (maskHashes db) nome email sub picture).1 =
      (upsertFromGoogle hg hf db nome email sub picture).1 := by
  have h1 := find?_mask (fun u => u.google_sub == sub) (fun u => rfl) db.users
  have h2 := find?_mask (emailMatches email) (fun u => rfl) db.users
  unfold upsertFromGoogle
  by_cases hc : (hg && sub != "") = true
  · simp only [maskHashes, hc, if_true, h1]
    cases hfs : db.users.find? (fun u => u.google_sub == sub) with
    | some u => simp
    | none =>
      simp only [Option.map_none', h2]
      cases hes : db.users.find? (emailMatches email) with
      | some u => simp
      | none => simp
  · simp only [maskHashes, hc, if_false, Bool.false_eq_true, h2]
    cases hes : db.users.find? (emailMatches email) with
    | some u => simp
    | none => simp

/-- C4: no success response carries the stored password credential: the
password-login payload, the user-lookup payload and the `User → UserPublic`
projection are invariant under any change of the stored/`Senha` credential
(the hash is not one of their fields), and the federated-login response is
computed without reading any stored hash at all. -/
theorem responses_never_contain_credential :
    (∀ (u : Usuario) (h e : String),
        loginPayloadOf { u with senha_hash := h } e = loginPayloadOf u e) ∧
    (∀ (u : Usuario) (h : String),
        buscarPayloadOf { u with senha_hash := h } = buscarPayloadOf u) ∧
    (∀ (m : MUser) (s : String), MUser.Public { m with Senha := s } = m.Public) ∧
    (∀ (clientID : String) (req : GoogleLoginRequest)
        (validated : Option GoogleClaims) (hg hf : Bool) (db : DB),
        (loginGoogle clientID req validated hg hf (maskHashes db)).1 =
          (loginGoogle clientID req validated hg hf db).1) := by
  refine ⟨fun u h e => rfl, fun u h => rfl, fun m s => rfl, ?_⟩
  intro clientID req validated hg hf db
  unfold loginGoogle
  by_cases hc : (clientID == "") = true
  · simp [hc]
  · by_cases ht : (trimS (firstNonEmpty [req.idToken, req.idTokenAlt, req.credential]) == "") = true
    · simp [hc, ht]
    · cases validated with
      | none => simp [hc, ht]
      | some c =>
        by_cases hm : (c.email == "" || c.sub == "") = true
        · simp [hc, ht, hm]
        · simp only [hc, ht, hm, if_false, Bool.false_eq_true]
          have hu := upsert_result_ignores_hashes hg hf db
            (if c.name == "" then c.email else c.name) c.email c.sub c.picture
          rcases hmm : upsertFromGoogle hg hf (maskHashes db)
              (if c.name == "" then c.email else c.name) c.email c.sub c.picture with ⟨u1, db1⟩
          rcases hdd : upsertFromGoogle hg hf db
              (if c.name == "" then c.email else c.name) c.email c.sub c.picture with ⟨u2, db2⟩
          rw [hmm, hdd] at hu
          simp at hu
          simp [hu]

/-! ## C5 — case-insensitive duplicate rejection -/

/-- C5: after a successful registration, a second registration attempt
whose email differs only in letter case (same trimmed+lowercased value) —
with otherwise valid fields — is rejected with the 409
`"E-mail já cadastrado"` conflict and leaves the store exactly as it was:
no second account is created. -/
theorem duplicate_email_case_insensitive (db : DB) (n1 e1 p1 n2 e2 p2 : String)
    (hn1 : nomeInvalido (trimS n1) = false)
    (he1 : parseAddressOk (normEmail e1) = true)
    (hp1 : senhaInvalida p1 = false)
    (hdup : db.users.any (emailMatches (normEmail e1)) = false)
    (hcase : normEmail e2 = normEmail e1)
    (hn2 : nomeInvalido (trimS n2) = false)
    (hp2 : senhaInvalida p2 = false) :
    (registerHandler db ⟨n1, e1, p1⟩).1 = .created ∧
      registerHandler (registerHandler db ⟨n1, e1, p1⟩).2 ⟨n2, e2, p2⟩ =
        (.err 409 "E-mail já cadastrado", (registerHandler db ⟨n1, e1, p1⟩).2) := by
  have hreg : registerHandler db ⟨n1, e1, p1⟩ =
      (.created,
       { users := db.users ++
           [⟨db.nextId, trimS n1, normEmail e1, bcryptHash p1, "", "", false⟩],
         nextId := db.nextId + 1 }) := by
    simp [registerHandler, sanitizeRegister, hn1, he1, hp1, hdup]
  refine ⟨by rw [hreg], ?_⟩
  rw [hreg]
  have he2 : parseAddressOk (normEmail e2) = true := by rw [hcase]; exact he1
  have hany : ((db.users ++
      [(⟨db.nextId, trimS n1, normEmail e1, bcryptHash p1, "", "", false⟩ : Usuario)]).any
        (emailMatches (normEmail e2))) = true := by
    rw [List.any_append]
    have : emailMatches (normEmail e2)
        ⟨db.nextId, trimS n1, normEmail e1, bcryptHash p1, "", "", false⟩ = true := by
      simp [emailMatches, hcase]
    simp [this]
  simp [registerHandler, sanitizeRegister, hn2, he2, hp2, hany]

/-- Concrete witness for C5: registering `a@b.com` then `A@B.com` answers
409 and leaves the single created account as the whole store. -/
theorem duplicate_email_case_insensitive_witness :
    (registerHandler ⟨[], 1⟩ ⟨"Ana", "a@b.com", "password1"⟩).1 = .created ∧
      registerHandler (registerHandler ⟨[], 1⟩ ⟨"Ana", "a@b.com", "password1"⟩).2
          ⟨"Bob", "A@B.com", "password2"⟩ =
        (.err 409 "E-mail já cadastrado",
         (registerHandler ⟨[], 1⟩ ⟨"Ana", "a@b.com", "password1"⟩).2) :=
  duplicate_email_case_insensitive ⟨[], 1⟩ "Ana" "a@b.com" "password1"
    "Bob" "A@B.com" "password2" (by decide) (by decide) (by decide) (by decide)
    (by decide) (by decide) (by decide)

/-! ## C6 — subject-id linking in step 2 of the Google upsert -/

/-- Refutation of C6 at a concrete input: the store holds one account for
`ana@x.com` whose `google_sub` is already the non-empty `"sub-A"`; a
federated resolution for the same email with subject `"sub-B"` (which no
account carries, so step 1 misses) rewrites the stored subject id to
`"sub-B"` — the code's step-2 `UPDATE usuarios SET google_sub=$1` has no
currently-empty guard, so an existing non-empty subject id is
overwritten. -/
theorem upsert_overwrites_subject_cex :
    ((upsertFromGoogle true true
        ⟨[⟨1, "Ana", "ana@x.com", "h", "sub-A", "", false⟩], 2⟩
        "Ana" "ana@x.com" "sub-B" "").2.users.map (fun u => u.google_sub))
      = ["sub-B"] ∧ "sub-A" ≠ "sub-B" :=
  ⟨by decide, by decide⟩

/-- C6 as amended: in step 2 (account found by case-insensitive email
after the subject lookup missed), the incoming subject id is written into
the account whenever the `google_sub` column exists and the incoming
subject id is non-empty — unconditionally, with no check that the stored
subject id is empty; an account's existing non-empty subject id is
therefore overwritten whenever a differing subject claims the same
email. -/
theorem upsert_step2_links_subject_unconditionally (hf : Bool) (db : DB)
    (nome email sub picture : String) (u : Usuario)
    (h1 : db.users.find? (fun v => v.google_sub == sub) = none)
    (h2 : db.users.find? (emailMatches email) = some u)
    (hsub : (sub != "") = true) :
    ((upsertFromGoogle true hf db nome email sub picture).2.users.all
      (fun v => v.id != u.id || v.google_sub == sub)) = true := by
  unfold upsertFromGoogle
  simp only [hsub, Bool.true_and, if_true, h1, h2, List.all_map]
  rw [List.all_eq_true]
  intro v _hv
  by_cases hid : v.id = u.id <;> simp [hid]

/-- Concrete witness for the amended C6: with the `"sub-A"`-linked account
of the refutation, the resolution with subject `"sub-B"` leaves every row
with id 1 carrying `google_sub = "sub-B"`. -/
theorem upsert_step2_links_subject_unconditionally_witness :
    ((upsertFromGoogle true true
        ⟨[⟨1, "Ana", "ana@x.com", "h", "sub-A", "", false⟩], 2⟩
        "Ana" "ana@x.com" "sub-B" "").2.users.all
      (fun v => v.id != 1 || v.google_sub == "sub-B")) = true :=
  upsert_step2_links_subject_unconditionally true
    ⟨[⟨1, "Ana", "ana@x.com", "h", "sub-A", "", false⟩], 2⟩
    "Ana" "ana@x.com" "sub-B" ""
    ⟨1, "Ana", "ana@x.com", "h", "sub-A", "", false⟩
    (by decide) (by decide) (by decide)

/-! ## C7 — token-based resolver failure modes -/

/-- C7: once the configured audience and a non-empty token are present, a
failed signature/audience validation (`idtoken.Validate` returning no
payload) answers the 401 `"ID Token inválido para este CLIENT_ID"` error,
and a validated token whose `email` or `sub` claim is absent answers the
401 `"Claims obrigatórias ausentes no token"` error; in both cases the
store is returned unchanged — no account is created or modified. -/
theorem loginGoogle_failure_modes (clientID : String) (req : GoogleLoginRequest)
    (hg hf : Bool) (db : DB) (c : GoogleClaims)
    (hcid : (clientID == "") = false)
    (htok : (trimS (firstNonEmpty [req.idToken, req.idTokenAlt, req.credential]) == "")
      = false) :
    loginGoogle clientID req none hg hf db =
        (.err 401 "ID Token inválido para este CLIENT_ID", db) ∧
      ((c.email = "" ∨ c.sub = "") →
        loginGoogle clientID req (some c) hg hf db =
          (.err 401 "Claims obrigatórias ausentes no token", db)) := by
  constructor
  · simp [loginGoogle, hcid, htok]
  · intro hmiss
    have hb : (c.email == "" || c.sub == "") = true := by
      rcases hmiss with h | h <;> simp [h]
    simp [loginGoogle, hcid, htok, hb]

/-- Concrete witness for C7: with a configured client id and a non-empty
token field, the invalid-token case and the missing-claims case each
answer their 401 error and leave the store untouched. -/
theorem loginGoogle_failure_modes_witness :
    loginGoogle "cid" ⟨"tok", "", ""⟩ none true true ⟨[], 1⟩ =
        (.err 401 "ID Token inválido para este CLIENT_ID", ⟨[], 1⟩) ∧
      loginGoogle "cid" ⟨"tok", "", ""⟩ (some ⟨"", "N", "", "s"⟩) true true ⟨[], 1⟩ =
        (.err 401 "Claims obrigatórias ausentes no token", ⟨[], 1⟩) := by
  have h := loginGoogle_failure_modes "cid" ⟨"tok", "", ""⟩ true true ⟨[], 1⟩
    ⟨"", "N", "", "s"⟩ (by decide) (by decide)
  exact ⟨h.1, h.2 (Or.inl rfl)⟩

/-! ## C8 — header-based resolver failure modes -/

/-- Refutation of C8 at a concrete input: with an empty store, a profile
update carrying the non-empty header email `x@y.com` (and a valid body)
fails with 404 `"Usuário não encontrado"`, which is a different response
from the 401 `"Usuário não autenticado"` Unauthenticated signal the claim
requires for an email that maps to no account. -/
theorem perfil_unmapped_email_not_unauthenticated_cex :
    atualizarPerfil ⟨[], 1⟩ "x@y.com" ⟨"Ana", "", "", ""⟩ =
        (.err 404 "Usuário não encontrado", ⟨[], 1⟩) ∧
      (PerfilResult.err 404 "Usuário não encontrado" ≠
        PerfilResult.err 401 "Usuário não autenticado") :=
  ⟨by decide, by decide⟩

/-- C8 as amended: in the profile-update handler, an empty (trimmed)
`X-User-Email` header fails with the 401 Unauthenticated signal, while a
non-empty header that maps to no account (exact-match lookup) fails with
404 `"Usuário não encontrado"` — not the Unauthenticated signal; the 404
case is reached once the body passes the name validation, and in both
cases the store is unchanged. -/
theorem perfil_identity_failure_modes (db : DB) (he : String)
    (req : PerfilRequest) :
    (trimS he = "" →
        atualizarPerfil db he req = (.err 401 "Usuário não autenticado", db)) ∧
      ((trimS he == "") = false → (2 ≤ (trimS req.nome).length) →
        db.users.any (fun u => u.email == trimS he) = false →
        atualizarPerfil db he req = (.err 404 "Usuário não encontrado", db)) := by
  constructor
  · intro h
    simp [atualizarPerfil, h]
  · intro hne hnome hmap
    have hlt : ¬ (trimS req.nome).length < 2 := by omega
    simp [atualizarPerfil, hne, hlt, hmap]

/-- Concrete witness for the amended C8: an empty header answers 401 and
an unmapped `x@y.com` header answers 404, both leaving the empty store
unchanged. -/
theorem perfil_identity_failure_modes_witness :
    atualizarPerfil ⟨[], 1⟩ "" ⟨"Ana", "", "", ""⟩ =
        (.err 401 "Usuário não autenticado", ⟨[], 1⟩) ∧
      atualizarPerfil ⟨[], 1⟩ "x@y.com" ⟨"Ana", "", "", ""⟩ =
        (.err 404 "Usuário não encontrado", ⟨[], 1⟩) :=
  ⟨(perfil_identity_failure_modes ⟨[], 1⟩ "" ⟨"Ana", "", "", ""⟩).1 (by decide),
   (perfil_identity_failure_modes ⟨[], 1⟩ "x@y.com" ⟨"Ana", "", "", ""⟩).2
     (by decide) (by decide) (by decide)⟩

/-! ## C9 — schema capability detection: cached once, conservative on error -/

/-- C9: the capability flags are computed at most once per repository
lifetime — after any first `ensureSchema` call the cache is marked and
every later call returns the cached flags while issuing zero metadata
queries (whatever the metadata oracle then answers) — and on a fresh cache
each flag is `true` exactly when the probe found the column, so a probe
that fails (or finds no row) reports the capability absent (`false`)
instead of propagating the failure. -/
theorem ensureSchema_cached_once_and_conservative
    (oracle oracle' : String → Probe) (s : RepoState) :
    ((ensureSchema oracle s).1.schemaChecked = true) ∧
      (ensureSchema oracle' (ensureSchema oracle s).1 = ((ensureSchema oracle s).1, 0)) ∧
      (s.schemaChecked = false →
        (ensureSchema oracle s).2 = 2 ∧
        (ensureSchema oracle s).1.hasGoogleSub = (oracle "google_sub" == .found) ∧
        (ensureSchema oracle s).1.hasFotoURL = (oracle "foto_url" == .found)) := by
  have hchk : (ensureSchema oracle s).1.schemaChecked = true := by
    unfold ensureSchema
    by_cases h : s.schemaChecked = true <;> simp [h]
  have hsecond : ∀ (o : String → Probe) (t : RepoState), t.schemaChecked = true →
      ensureSchema o t = (t, 0) := by
    intro o t ht
    unfold ensureSchema
    simp [ht]
  refine ⟨hchk, hsecond oracle' _ hchk, ?_⟩
  intro h
  have hlg : lowerS "google_sub" = "google_sub" := by decide
  have hlf : lowerS "foto_url" = "foto_url" := by decide
  unfold ensureSchema
  simp only [h, Bool.false_eq_true, if_false]
  refine ⟨by simp, ?_, ?_⟩
  · show checkCol oracle "google_sub" = _
    unfold checkCol
    rw [hlg]
    cases ho : oracle "google_sub" <;> simp [ho]
  · show checkCol oracle "foto_url" = _
    unfold checkCol
    rw [hlf]
    cases ho : oracle "foto_url" <;> simp [ho]

/-- Concrete witness for C9: with an oracle that finds `google_sub` but
fails on `foto_url`, a fresh detection issues two probes, reports
`hasGoogleSub = true` and conservatively `hasFotoURL = false`; a repeated
call under an oracle that now fails everything returns the cached flags
with zero probes. -/
theorem ensureSchema_cached_once_and_conservative_witness :
    ((ensureSchema
        (fun c => if c == "google_sub" then .found else .failed "connection reset")
        ⟨false, false, false⟩).1.schemaChecked = true) ∧
      (ensureSchema (fun _ => .failed "down")
          (ensureSchema
            (fun c => if c == "google_sub" then .found else .failed "connection reset")
            ⟨false, false, false⟩).1 =
        ((ensureSchema
            (fun c => if c == "google_sub" then .found else .failed "connection reset")
            ⟨false, false, false⟩).1, 0)) ∧
      ((ensureSchema
          (fun c => if c == "google_sub" then .found else .failed "connection reset")
          ⟨false, false, false⟩).2 = 2 ∧
        (ensureSchema
          (fun c => if c == "google_sub" then .found else .failed "connection reset")
          ⟨false, false, false⟩).1.hasGoogleSub =
            ((if ("google_sub" : String) == "google_sub" then Probe.found
              else .failed "connection reset") == Probe.found) ∧
        (ensureSchema
          (fun c => if c == "google_sub" then .found else .failed "connection reset")
          ⟨false, false, false⟩).1.hasFotoURL =
            ((if ("foto_url" : String) == "google_sub" then Probe.found
              else .failed "connection reset") == Probe.found)) := by
  have h := ensureSchema_cached_once_and_conservative
    (fun c => if c == "google_sub" then .found else .failed "connection reset")
    (fun _ => .failed "down") ⟨false, false, false⟩
  exact ⟨h.1, h.2.1, h.2.2 rfl⟩

/-! ## C10 — tutorial flag: default true, frame condition -/

/-- C10: for a positive id present in the store, the tutorial update with
an absent/undecodable/field-less body (`body = none`) answers 204 and sets
the targeted account's `tutorial_visto` to `true` (the default), and — for
any decoded body value as well — it touches nothing else: the serial
counter is untouched and, row by row, id, name, email, password hash,
subject id and avatar are preserved, with `tutorial_visto` rewritten only
on the targeted id and preserved on every other account. -/
theorem marcarTutorial_default_true_and_frame (db : DB) (id : Int)
    (body : Option Bool)
    (hid : 0 < id)
    (hex : db.users.any (fun u => ((u.id : Int) == id)) = true) :
    (marcarTutorialVisto db id none).1 = .noContent ∧
      (marcarTutorialVisto db id body).2.nextId = db.nextId ∧
      ((db.users.zip (marcarTutorialVisto db id none).2.users).all
        (fun p => tutFrame id true p.1 p.2)) = true ∧
      ((db.users.zip (marcarTutorialVisto db id body).2.users).all
        (fun p => tutFrame id (body.getD true) p.1 p.2)) = true := by
  have hle : ¬ id ≤ 0 := by omega
  have frame : ∀ b : Option Bool,
      ((db.users.zip (marcarTutorialVisto db id b).2.users).all
        (fun p => tutFrame id (b.getD true) p.1 p.2)) = true := by
    intro b
    have husers : (marcarTutorialVisto db id b).2.users =
        db.users.map (fun u =>
          if ((u.id : Int) == id) then { u with tutorial_visto := b.getD true }
          else u) := by
      unfold marcarTutorialVisto
      simp only [hle, if_false]
      by_cases h : db.users.any (fun u => ((u.id : Int) == id)) = true <;> simp [h]
    rw [husers, zip_map_all, List.all_eq_true]
    intro u _hu
    by_cases h : ((u.id : Int) == id) = true <;> simp [tutFrame, h]
  refine ⟨?_, ?_, frame none, frame body⟩
  · unfold marcarTutorialVisto
    simp [hle, hex]
  · unfold marcarTutorialVisto
    simp only [hle, if_false]
    by_cases h : db.users.any (fun u => ((u.id : Int) == id)) = true <;> simp [h]

/-- Concrete witness for C10: on a two-account store, updating id 1 with
no body answers 204, leaves the serial counter at 3, sets account 1's flag
to `true` and leaves account 2 (and every other field of account 1)
untouched; with a decoded `false` body the frame holds with value
`false`. -/
theorem marcarTutorial_default_true_and_frame_witness :
    (marcarTutorialVisto
        ⟨[⟨1, "Ana", "ana@x.com", "h", "s", "f", false⟩,
          ⟨2, "Bob", "bob@x.com", "h2", "", "", false⟩], 3⟩ 1 none).1 = .noContent ∧
      (marcarTutorialVisto
        ⟨[⟨1, "Ana", "ana@x.com", "h", "s", "f", false⟩,
          ⟨2, "Bob", "bob@x.com", "h2", "", "", false⟩], 3⟩ 1 (some false)).2.nextId = 3 ∧
      ((([⟨1, "Ana", "ana@x.com", "h", "s", "f", false⟩,
          ⟨2, "Bob", "bob@x.com", "h2", "", "", false⟩] : List Usuario).zip
         (marcarTutorialVisto
           ⟨[⟨1, "Ana", "ana@x.com", "h", "s", "f", false⟩,
             ⟨2, "Bob", "bob@x.com", "h2", "", "", false⟩], 3⟩ 1 none).2.users).all
        (fun p => tutFrame 1 true p.1 p.2)) = true ∧
      ((([⟨1, "Ana", "ana@x.com", "h", "s", "f", false⟩,
          ⟨2, "Bob", "bob@x.com", "h2", "", "", false⟩] : List Usuario).zip
         (marcarTutorialVisto
           ⟨[⟨1, "Ana", "ana@x.com", "h", "s", "f", false⟩,
             ⟨2, "Bob", "bob@x.com", "h2", "", "", false⟩], 3⟩ 1 (some false)).2.users).all
        (fun p => tutFrame 1 ((some false).getD true) p.1 p.2)) = true :=
  marcarTutorial_default_true_and_frame
    ⟨[⟨1, "Ana", "ana@x.com", "h", "s", "f", false⟩,
      ⟨2, "Bob", "bob@x.com", "h2", "", "", false⟩], 3⟩ 1 (some false)
    (by decide) (by decide)

end Tecmise
